import Mathlib

/-!
A shallow embedding of `mitemp_bt/__init__.py` (class `MiTempBtPoller`), the
poller for the Xiaomi Mi Temperature/Humidity BLE sensor, together with proofs
about its cache/refresh policy, payload decoding and error behaviour.

Modelling conventions:
* Python strings are modelled as `List Char`; the sensor payloads relevant here
  are ASCII, and `str.isprintable` is modelled on the ASCII fragment.
* Wall-clock time (`datetime.now()`) is an integer number of seconds passed in
  explicitly as `now`; `timedelta(seconds = n)` is the integer `n`.  The several
  `datetime.now()` calls inside one method run within the same instant and are
  modelled by the same `now`.
* The BLE transport (`btlewrap`) is opaque in the source; each call that touches
  it takes an explicit environment value describing the transport's outcome
  (`FwReadEnv` for the firmware/battery reads, `NotifEnv` for the
  sensor-data notification wait).
* Python numbers parsed by `float(...)` are modelled as exact decimals
  (`Dec`, an integer mantissa with a power-of-ten scale, denoting the rational
  `Dec.toRat`); every payload in the claims is a plain decimal literal, and
  all comparisons the source performs on them are decided by integer
  arithmetic, which the kernel can evaluate.
* Exceptions are modelled by an explicit error component: state-mutating
  methods return `PollerState × Option PyErr` (the state at the moment the
  exception escapes is kept, as in Python), value-returning methods return
  `PollerState × Except PyErr α`.
* The instance lock (`self.lock`) only serializes threads; the embedding is
  single-threaded, so it has no observable effect.  The constructor arguments
  `mac`, `backend`, `retries` and `adapter` do not influence any claim and are
  omitted from the state.
-/

namespace MiTemp

/-- The `MiTempParameter` enum of the source: queryable parameters.
Note the member set: there is no `MI_BATTERY` member. -/
inductive MiTempParameter where
  | TEMPERATURE
  | HUMIDITY
  | BATTERY
deriving DecidableEq

/-- The Python exceptions that the source can raise on the paths we model.
`bluetoothBackendException` is `btlewrap.base.BluetoothBackendException`, the
error the source itself raises as "sensor unavailable" and the one its
`except` clauses catch. -/
inductive PyErr where
  | attributeError
  | bluetoothBackendException
  | keyError
  | indexError
  | valueError
  | typeError
deriving DecidableEq

deriving instance DecidableEq for Except

/-- The mutable fields of a `MiTempBtPoller` instance (leading underscores of
the Python attribute names dropped).  `cache` holds the decoded notification
text, `battery` the battery byte value. -/
structure PollerState where
  cache : Option (List Char)
  cache_timeout : Int
  last_read : Option Int
  fw_last_read : Option Int
  firmware_version : Option (List Char)
  battery : Option Nat
deriving DecidableEq

/-- The state made by `__init__` with the default `cache_timeout=600`. -/
def initState : PollerState :=
  { cache := none, cache_timeout := 600, last_read := none, fw_last_read := none,
    firmware_version := none, battery := none }

/-- Outcome of the firmware/battery read block in `firmware_version`:
either the connection/`read_handle` raises `BluetoothBackendException`, or the
two reads deliver `res_firmware` (bytes decoded as UTF-8, `None` if absent) and
`res_battery` (a single byte, `None` if absent). -/
inductive FwReadEnv where
  | fail
  | ok (res_firmware : Option (List Char)) (res_battery : Option (Fin 256))

/-- Outcome of the `with connect: wait_for_notification` block in `fill_cache`:
the connection open fails, the wait raises `BluetoothBackendException`
(including timeouts), or a notification with payload `raw` (already decoded
from UTF-8; `none` models `raw_data is None`) is delivered to
`handleNotification` and the wait returns. -/
inductive NotifEnv where
  | connectFail
  | waitFail
  | notif (raw : Option (List Char))

/-- Python `str.split(sep)` for a one-character separator, on char lists:
`"a,,b".split(",") == ["a", "", "b"]`, `"".split(",") == [""]`.
The result is always nonempty. -/
def splitOnChar (sep : Char) : List Char → List (List Char)
  | [] => [[]]
  | c :: rest =>
    if c = sep then [] :: splitOnChar sep rest
    else
      match splitOnChar sep rest with
      | [] => [[c]]
      | g :: gs => (c :: g) :: gs

/-- Python `str.strip(chars)` on char lists: drop the maximal prefix and the
maximal suffix of characters satisfying `p`. -/
def pyStripChars (p : Char → Bool) (cs : List Char) : List Char :=
  ((cs.dropWhile p).reverse.dropWhile p).reverse

/-- The character set of `strip(" \n\t")` in `handleNotification`. -/
def isSpaceNlTab (c : Char) : Bool :=
  c = ' ' || c = '\n' || c = '\t'

/-- Python `str.isprintable`, on the ASCII fragment (every payload in the
claims is ASCII): printable iff in `0x20 .. 0x7E`. -/
def pyIsPrintable (c : Char) : Bool :=
  0x20 ≤ c.toNat && c.toNat ≤ 0x7E

/-- The sanitizing prelude of `_parse_data`:
`data.strip("\0")` followed by `filter(lambda i: i.isprintable(), data)`. -/
def sanitize (cs : List Char) : List Char :=
  (pyStripChars (fun c => c = '\x00') cs).filter pyIsPrintable

/-- Numeric value of a nonempty all-digit char list. -/
def natOfDigits (cs : List Char) : Nat :=
  cs.foldl (fun a c => 10 * a + (c.toNat - 48)) 0

/-- An exact decimal, `num / 10 ^ scale`.  This is the value Python's
`float(...)` yields on the sensor's plain decimal literals; keeping mantissa
and scale separate lets every comparison reduce to integer arithmetic. -/
structure Dec where
  num : Int
  scale : Nat
deriving DecidableEq

/-- The rational a `Dec` denotes. -/
def Dec.toRat (d : Dec) : ℚ :=
  (d.num : ℚ) / 10 ^ d.scale

/-- Comparison `d > n` against an integer bound `n`, decided on the representation. -/
def Dec.gtInt (d : Dec) (n : Int) : Bool :=
  decide (n * 10 ^ d.scale < d.num)

/-- Python `float(s)` on the plain decimal literals the sensor emits:
optional sign, digits with an optional decimal point (`"25.6"`, `"-5"`,
`".5"`, `"25."`).  Exponent/`inf`/`nan`/whitespace forms never occur in the
payloads of the claims and are not modelled.  `none` models `ValueError`. -/
def pyFloat (cs : List Char) : Option Dec :=
  let signed : Int × List Char :=
    match cs with
    | '+' :: r => (1, r)
    | '-' :: r => (-1, r)
    | r => (1, r)
  match splitOnChar '.' signed.2 with
  | [ip] =>
    if ip.all Char.isDigit && !ip.isEmpty then
      some { num := signed.1 * natOfDigits ip, scale := 0 }
    else none
  | [ip, fp] =>
    if ip.all Char.isDigit && fp.all Char.isDigit && (!ip.isEmpty || !fp.isEmpty) then
      some { num := signed.1 * (natOfDigits ip * 10 ^ fp.length + natOfDigits fp),
             scale := fp.length }
    else none
  | _ => none

/-- The `res` dictionary built by `_parse_data`: at most the keys
`TEMPERATURE` and `HUMIDITY` ever appear, so it is a pair of options. -/
structure ParsedData where
  temperature : Option Dec
  humidity : Option Dec
deriving DecidableEq

/-- One iteration of the token loop of `_parse_data`:
`dataparts = dataitem.split("=")`; key `"T"`/`"H"` stores
`float(dataparts[1])`.  `dataparts[1]` raises `IndexError` when the token has
no `"="`; a failing `float` raises `ValueError`.  Other keys are ignored. -/
def parseToken (res : ParsedData) (dataitem : List Char) : Except PyErr ParsedData :=
  match splitOnChar '=' dataitem with
  | [] => .error .indexError
  | key :: restparts =>
    if key = ['T'] then
      match restparts with
      | [] => .error .indexError
      | v :: _ =>
        match pyFloat v with
        | some q => .ok { res with temperature := some q }
        | none => .error .valueError
    else if key = ['H'] then
      match restparts with
      | [] => .error .indexError
      | v :: _ =>
        match pyFloat v with
        | some q => .ok { res with humidity := some q }
        | none => .error .valueError
    else .ok res

/-- The `for dataitem in data.split(" ")` loop of `_parse_data`. -/
def parseTokens : ParsedData → List (List Char) → Except PyErr ParsedData
  | res, [] => .ok res
  | res, t :: ts =>
    match parseToken res t with
    | .ok r => parseTokens r ts
    | .error e => .error e

/-- Method `_parse_data` of the source, as a function of the cached text. -/
def _parse_data (cache : List Char) : Except PyErr ParsedData :=
  parseTokens { temperature := none, humidity := none } (splitOnChar ' ' (sanitize cache))

/-- Method `cache_available` of the source. -/
def cache_available (s : PollerState) : Bool :=
  s.cache.isSome

/-- Method `clear_cache` of the source. -/
def clear_cache (s : PollerState) : PollerState :=
  { s with cache := none, last_read := none }

/-- Method `_check_data` of the source.  Note that the `_LOGGER.debug` call evaluates
`parsed[TEMPERATURE]` and `parsed[HUMIDITY]` eagerly, so a payload missing
either key raises `KeyError` here, before the humidity bound is checked. -/
def _check_data (s : PollerState) : PollerState × Option PyErr :=
  match s.cache with
  | none => (s, none)
  | some c =>
    match _parse_data c with
    | .error e => (s, some e)
    | .ok parsed =>
      match parsed.temperature with
      | none => (s, some .keyError)
      | some _ =>
        match parsed.humidity with
        | none => (s, some .keyError)
        | some h =>
          if h.gtInt 100 then (clear_cache s, none) else (s, none)

/-- Method `handleNotification` of the source (the UTF-8 decode of `raw_data` is the
identity on our char-list payloads). -/
def handleNotification (s : PollerState) (now : Int) (raw : Option (List Char)) :
    PollerState × Option PyErr :=
  match raw with
  | none => (s, none)
  | some raw_data =>
    let data := pyStripChars isSpaceNlTab raw_data
    let s1 := { s with cache := some data }
    match _check_data s1 with
    | (s2, some e) => (s2, some e)
    | (s2, none) =>
      if cache_available s2 then ({ s2 with last_read := some now }, none)
      else ({ s2 with last_read := some (now - s2.cache_timeout + 300) }, none)

/-- Method `firmware_version` of the source.  The refresh condition is
`(self._firmware_version is None) or (datetime.now() - timedelta(hours=24) > self._fw_last_read)`;
comparing against an absent `_fw_last_read` is a `TypeError` (only reachable if
the fields are mutated externally).  `_fw_last_read` is stamped before the
connection is opened, so a failing fetch still updates it.
First, `int(ord(res_battery))` for a one-byte read, `0` when the read returned
`None`. -/
def batteryOfRead (res_battery : Option (Fin 256)) : Nat :=
  match res_battery with
  | none => 0
  | some b => b.val

/-- The fetch block of `firmware_version`: stamp `_fw_last_read`, open a
connection, read the firmware-version and battery-level attributes, decode
them. -/
def fwFetch (s : PollerState) (now : Int) (env : FwReadEnv) :
    PollerState × Except PyErr (Option (List Char)) :=
  let s1 := { s with fw_last_read := some now }
  match env with
  | .fail => (s1, .error .bluetoothBackendException)
  | .ok res_firmware res_battery =>
    ({ s1 with firmware_version := res_firmware, battery := some (batteryOfRead res_battery) },
     .ok res_firmware)

def firmware_version (s : PollerState) (now : Int) (env : FwReadEnv) :
    PollerState × Except PyErr (Option (List Char)) :=
  match s.firmware_version with
  | none => fwFetch s now env
  | some f =>
    match s.fw_last_read with
    | none => (s, .error .typeError)
    | some t => if now - 86400 > t then fwFetch s now env else (s, .ok (some f))

/-- Method `battery_level` of the source: refresh firmware/battery (at most once per
24h), then return `self.battery`. -/
def battery_level (s : PollerState) (now : Int) (env : FwReadEnv) :
    PollerState × Except PyErr (Option Nat) :=
  match firmware_version s now env with
  | (s1, .error e) => (s1, .error e)
  | (s1, .ok _) => (s1, .ok s1.battery)

/-- Method `fill_cache` of the source.  A `BluetoothBackendException` from
`firmware_version` sets the shortened retry timestamp and is re-raised; a
failure opening the data connection propagates untouched; a
`BluetoothBackendException` from the notification wait sets the shortened
retry timestamp and is swallowed; a delivered notification runs
`handleNotification`, whose non-`BluetoothBackendException` errors escape. -/
def fill_cache (s : PollerState) (now : Int) (fwEnv : FwReadEnv) (nEnv : NotifEnv) :
    PollerState × Option PyErr :=
  match firmware_version s now fwEnv with
  | (s1, .error .bluetoothBackendException) =>
    ({ s1 with last_read := some (now - s1.cache_timeout + 300) },
     some .bluetoothBackendException)
  | (s1, .error e) => (s1, some e)
  | (s1, .ok _) =>
    match nEnv with
    | .connectFail => (s1, some .bluetoothBackendException)
    | .waitFail =>
      ({ s1 with last_read := some (now - s1.cache_timeout + 300) }, none)
    | .notif raw =>
      match handleNotification s1 now raw with
      | (s2, some .bluetoothBackendException) =>
        ({ s2 with last_read := some (now - s2.cache_timeout + 300) }, none)
      | (s2, e) => (s2, e)

/-- The staleness condition of `parameter_value` (lines 132–136):
`read_cached is False or self._last_read is None or datetime.now() - self._cache_timeout > self._last_read`. -/
def cache_is_stale (s : PollerState) (now : Int) (read_cached : Bool) : Bool :=
  !read_cached ||
    match s.last_read with
    | none => true
    | some t => decide (now - s.cache_timeout > t)

/-- Method `parameter_value` of the source.  Its first statement is
`if parameter == MiTempParameter.MI_BATTERY:` — but the `MiTempParameter`
enum has no member `MI_BATTERY` (its members are `TEMPERATURE`, `HUMIDITY`,
`BATTERY`), so evaluating the attribute raises `AttributeError` before the
comparison, for every argument.  Nothing after line 126 is reachable. -/
def parameter_value (s : PollerState) (now : Int) (parameter : MiTempParameter)
    (read_cached : Bool) (fwEnv : FwReadEnv) (nEnv : NotifEnv) :
    PollerState × Except PyErr Dec :=
  (s, .error .attributeError)

/-- The remainder of `parameter_value` (lines 130–143), modelled standalone:
the lock-guarded cache-or-refresh step followed by the cached-data lookup.
In the source this code is dead — line 126 raises `AttributeError` first —
but it documents what the method body does after the battery check.
`self._parse_data()[parameter]` is a dict lookup: a missing key raises
`KeyError`; an absent cache raises `BluetoothBackendException`
("Could not read data from Mi Temp sensor"). -/
def parameter_value_body (s : PollerState) (now : Int) (parameter : MiTempParameter)
    (read_cached : Bool) (fwEnv : FwReadEnv) (nEnv : NotifEnv) :
    PollerState × Except PyErr Dec :=
  let step : PollerState × Option PyErr :=
    if cache_is_stale s now read_cached then fill_cache s now fwEnv nEnv else (s, none)
  match step with
  | (s1, some e) => (s1, .error e)
  | (s1, none) =>
    match s1.cache with
    | none => (s1, .error .bluetoothBackendException)
    | some c =>
      match _parse_data c with
      | .error e => (s1, .error e)
      | .ok parsed =>
        match parameter with
        | .TEMPERATURE =>
          match parsed.temperature with
          | some q => (s1, .ok q)
          | none => (s1, .error .keyError)
        | .HUMIDITY =>
          match parsed.humidity with
          | some q => (s1, .ok q)
          | none => (s1, .error .keyError)
        | .BATTERY => (s1, .error .keyError)

/-- A poller that has just read the payload `T=25.6 H=23.6` at time 1000. -/
def freshReadState : PollerState :=
  { initState with cache := some "T=25.6 H=23.6".data, last_read := some 1000 }

/-- A poller holding a cached payload that lacks the humidity key. -/
def tOnlyState : PollerState :=
  { initState with cache := some "T=25.6".data, last_read := some 1000 }

/-- A poller whose firmware/battery were fetched at time 0. -/
def fwCachedState : PollerState :=
  { initState with firmware_version := some "1.00".data, fw_last_read := some 0 }

/-- The state after a first firmware/battery fetch at time 0 that read firmware
text `1.00` and battery byte 77. -/
def fwFetchedState : PollerState :=
  { initState with fw_last_read := some 0, firmware_version := some "1.00".data, battery := some 77 }

/-! ### Helper lemmas -/

theorem Dec.gtInt_iff (d : Dec) (n : Int) : d.gtInt n = true ↔ (n : ℚ) < d.toRat := by
  unfold Dec.gtInt Dec.toRat
  rw [decide_eq_true_iff, lt_div_iff₀ (by positivity : (0 : ℚ) < 10 ^ d.scale)]
  exact_mod_cast Iff.rfl

/-- A filter that rejects everything `p` accepts is unchanged by `dropWhile p`. -/
theorem filter_dropWhile {p q : Char → Bool} (h : ∀ c, p c = true → q c = false)
    (cs : List Char) : (cs.dropWhile p).filter q = cs.filter q := by
  conv_rhs => rw [← List.takeWhile_append_dropWhile p cs]
  rw [List.filter_append]
  have hnil : (cs.takeWhile p).filter q = [] :=
    List.filter_eq_nil_iff.2 fun a ha => by
      simp [h a (List.mem_takeWhile_imp ha)]
  rw [hnil, List.nil_append]

/-- A filter that rejects everything `p` accepts is unchanged by stripping. -/
theorem filter_pyStripChars {p q : Char → Bool} (h : ∀ c, p c = true → q c = false)
    (cs : List Char) : (pyStripChars p cs).filter q = cs.filter q := by
  unfold pyStripChars
  rw [List.filter_reverse, filter_dropWhile h, List.filter_reverse,
    List.reverse_reverse, filter_dropWhile h]

/-- Since NUL is not printable, the leading strip of `_parse_data` is
subsumed by its printability filter. -/
theorem sanitize_eq_filter (cs : List Char) : sanitize cs = cs.filter pyIsPrintable := by
  unfold sanitize
  exact filter_pyStripChars
    (fun c hc => by
      have : c = '\x00' := by simpa using hc
      subst this
      decide)
    cs

theorem splitOnChar_no_sep {sep : Char} (xs : List Char) (h : ∀ c ∈ xs, ¬c = sep) :
    splitOnChar sep xs = [xs] := by
  induction xs with
  | nil => rfl
  | cons x xs ih =>
    have hx : ¬x = sep := h x (by simp)
    rw [splitOnChar, if_neg hx, ih (fun c hc => h c (by simp [hc]))]

theorem splitOnChar_append {sep : Char} (xs ys : List Char) (h : ∀ c ∈ xs, ¬c = sep) :
    splitOnChar sep (xs ++ sep :: ys) = xs :: splitOnChar sep ys := by
  induction xs with
  | nil =>
    show splitOnChar sep (sep :: ys) = [] :: splitOnChar sep ys
    rw [splitOnChar, if_pos rfl]
  | cons x xs ih =>
    have hx : ¬x = sep := h x (by simp)
    show splitOnChar sep (x :: (xs ++ sep :: ys)) = (x :: xs) :: splitOnChar sep ys
    rw [splitOnChar, if_neg hx, ih (fun c hc => h c (by simp [hc]))]

/-- Stripping keeps an unstripped head, and what follows it is a prefix of
the original tail. -/
theorem pyStripChars_cons {p : Char → Bool} (x : Char) (xs : List Char) (hx : p x = false) :
    ∃ t, pyStripChars p (x :: xs) = x :: t ∧ t <+: xs := by
  unfold pyStripChars
  rw [List.dropWhile_cons, if_neg (by simp [hx]), List.reverse_cons, List.dropWhile_append]
  by_cases he : (xs.reverse.dropWhile p).isEmpty
  · rw [if_pos he]
    refine ⟨[], ?_, List.nil_prefix⟩
    rw [List.dropWhile_cons, if_neg (by simp [hx])]
    rfl
  · rw [if_neg he]
    refine ⟨(xs.reverse.dropWhile p).reverse, ?_, ?_⟩
    · rw [List.reverse_append]
      rfl
    · have hsuf : xs.reverse.dropWhile p <:+ xs.reverse := List.dropWhile_suffix p
      have := List.reverse_prefix.2 hsuf
      rwa [List.reverse_reverse] at this

/-- A token holding a parseable value stores it under `T`. -/
theorem parseToken_T (res : ParsedData) (t : List Char) (d : Dec)
    (ht : ∀ c ∈ t, ¬c = '=') (hp : pyFloat t = some d) :
    parseToken res ('T' :: '=' :: t) = .ok { res with temperature := some d } := by
  have hs : splitOnChar '=' ('T' :: '=' :: t) = ['T'] :: splitOnChar '=' t :=
    splitOnChar_append ['T'] t (by decide)
  rw [parseToken, hs, splitOnChar_no_sep t ht]
  simp [hp]

/-- A token holding a parseable value stores it under `H`. -/
theorem parseToken_H (res : ParsedData) (h : List Char) (d : Dec)
    (hh : ∀ c ∈ h, ¬c = '=') (hp : pyFloat h = some d) :
    parseToken res ('H' :: '=' :: h) = .ok { res with humidity := some d } := by
  have hs : splitOnChar '=' ('H' :: '=' :: h) = ['H'] :: splitOnChar '=' h :=
    splitOnChar_append ['H'] h (by decide)
  rw [parseToken, hs, splitOnChar_no_sep h hh]
  simp [hp]

/-- A token whose key part is neither `T` nor `H` is ignored. -/
theorem parseToken_other (res : ParsedData) (u k : List Char) (parts : List (List Char))
    (hsplit : splitOnChar '=' u = k :: parts) (hk1 : ¬k = ['T']) (hk2 : ¬k = ['H']) :
    parseToken res u = .ok res := by
  rw [parseToken, hsplit]
  simp [hk1, hk2]

/-- A bare `T` token fails with `IndexError` at once, whatever came before. -/
theorem parseTokens_bareT (res : ParsedData) (ts : List (List Char)) :
    parseTokens res (['T'] :: ts) = .error .indexError := rfl

theorem parseTokens_bareH (res : ParsedData) (ts : List (List Char)) :
    parseTokens res (['H'] :: ts) = .error .indexError := rfl

/-- Running the token loop over exactly two successful tokens. -/
theorem parseTokens_two (res r1 r2 : ParsedData) (u v : List Char)
    (h1 : parseToken res u = .ok r1) (h2 : parseToken r1 v = .ok r2) :
    parseTokens res [u, v] = .ok r2 := by
  simp only [parseTokens, h1, h2]

/-- Unfolding `_check_data` when the cache parses with both keys present. -/
theorem _check_data_parsed (s : PollerState) (c : List Char) (dt dh : Dec)
    (hc : s.cache = some c) (hp : _parse_data c = .ok ⟨some dt, some dh⟩) :
    _check_data s = if dh.gtInt 100 then (clear_cache s, none) else (s, none) := by
  simp only [_check_data, hc, hp]

/-- Unfolding `_check_data` when parsing the cache raises. -/
theorem _check_data_err (s : PollerState) (c : List Char) (e : PyErr)
    (hc : s.cache = some c) (hp : _parse_data c = .error e) :
    _check_data s = (s, some e) := by
  simp only [_check_data, hc, hp]

/-- A notification whose payload decodes with both keys: kept and stamped when
humidity is within bound, wiped with the shortened retry timestamp otherwise. -/
theorem handleNotification_parsed (s : PollerState) (now : Int) (raw : List Char)
    (dt dh : Dec)
    (hp : _parse_data (pyStripChars isSpaceNlTab raw) = .ok ⟨some dt, some dh⟩) :
    handleNotification s now (some raw) =
      if dh.gtInt 100 then
        ({ s with cache := none, last_read := some (now - s.cache_timeout + 300) }, none)
      else
        ({ s with cache := some (pyStripChars isSpaceNlTab raw), last_read := some now },
         none) := by
  rw [handleNotification]
  rw [_check_data_parsed { s with cache := some (pyStripChars isSpaceNlTab raw) }
    (pyStripChars isSpaceNlTab raw) dt dh rfl hp]
  by_cases hb : dh.gtInt 100
  · rw [if_pos hb, if_pos hb]
    rfl
  · rw [if_neg hb, if_neg hb]
    rfl

/-- A notification whose payload fails to parse: the exception escapes the
handler and the fresh (corrupt) cache entry stays in place. -/
theorem handleNotification_err (s : PollerState) (now : Int) (raw : List Char) (e : PyErr)
    (hp : _parse_data (pyStripChars isSpaceNlTab raw) = .error e) :
    handleNotification s now (some raw) =
      ({ s with cache := some (pyStripChars isSpaceNlTab raw) }, some e) := by
  rw [handleNotification]
  rw [_check_data_err { s with cache := some (pyStripChars isSpaceNlTab raw) }
    (pyStripChars isSpaceNlTab raw) e rfl hp]

theorem firmware_version_first (s : PollerState) (now : Int) (env : FwReadEnv)
    (h : s.firmware_version = none) : firmware_version s now env = fwFetch s now env := by
  simp only [firmware_version, h]

theorem firmware_version_stale (s : PollerState) (now : Int) (env : FwReadEnv)
    (f : List Char) (t : Int) (hf : s.firmware_version = some f)
    (ht : s.fw_last_read = some t) (hstale : now - 86400 > t) :
    firmware_version s now env = fwFetch s now env := by
  simp only [firmware_version, hf, ht]
  rw [if_pos hstale]

theorem firmware_version_fresh (s : PollerState) (now : Int) (env : FwReadEnv)
    (f : List Char) (t : Int) (hf : s.firmware_version = some f)
    (ht : s.fw_last_read = some t) (hfresh : ¬now - 86400 > t) :
    firmware_version s now env = (s, .ok (some f)) := by
  simp only [firmware_version, hf, ht]
  rw [if_neg hfresh]

/-- The refresh condition of `firmware_version` holds: the fetch block runs. -/
theorem firmware_version_fetches (s : PollerState) (now : Int) (env : FwReadEnv)
    (hfetch : s.firmware_version = none ∨ ∃ t, s.fw_last_read = some t ∧ now - 86400 > t) :
    firmware_version s now env = fwFetch s now env := by
  rcases hfetch with h | ⟨t, ht, hstale⟩
  · exact firmware_version_first s now env h
  · cases hf : s.firmware_version with
    | none => exact firmware_version_first s now env hf
    | some f => exact firmware_version_stale s now env f t hf ht hstale

/-- With a successful read environment and a state whose firmware timer is not
corrupted, the firmware step succeeds and leaves the reading-cache fields
untouched. -/
theorem firmware_version_ok (s : PollerState) (now : Int) (rf : Option (List Char))
    (rb : Option (Fin 256)) (hinv : s.firmware_version = none ∨ ¬s.fw_last_read = none) :
    ∃ s1 r, firmware_version s now (.ok rf rb) = (s1, .ok r)
      ∧ s1.cache = s.cache ∧ s1.last_read = s.last_read
      ∧ s1.cache_timeout = s.cache_timeout := by
  cases hf : s.firmware_version with
  | none =>
    rw [firmware_version_first s now (.ok rf rb) hf]
    exact ⟨_, _, rfl, rfl, rfl, rfl⟩
  | some f =>
    cases ht : s.fw_last_read with
    | none =>
      rcases hinv with h1 | h2
      · rw [hf] at h1; cases h1
      · exact absurd ht h2
    | some t =>
      by_cases hstale : now - 86400 > t
      · rw [firmware_version_stale s now (.ok rf rb) f t hf ht hstale]
        exact ⟨_, _, rfl, rfl, rfl, rfl⟩
      · rw [firmware_version_fresh s now (.ok rf rb) f t hf ht hstale]
        exact ⟨_, _, rfl, rfl, rfl, rfl⟩

/-- A firmware fetch that fails: the shortened retry timestamp is set and the
`BluetoothBackendException` is re-raised out of `fill_cache`. -/
theorem fill_cache_fw_fail (s : PollerState) (now : Int) (nEnv : NotifEnv)
    (hfetch : s.firmware_version = none ∨ ∃ t, s.fw_last_read = some t ∧ now - 86400 > t) :
    fill_cache s now .fail nEnv =
      ({ s with fw_last_read := some now, last_read := some (now - s.cache_timeout + 300) },
       some .bluetoothBackendException) := by
  simp only [fill_cache, firmware_version_fetches s now .fail hfetch]
  rfl

/-- A notification-wait failure inside `fill_cache` is swallowed: the
shortened retry timestamp is set and no exception escapes. -/
theorem fill_cache_wait_fail (s : PollerState) (now : Int) (rf : Option (List Char))
    (rb : Option (Fin 256)) (hinv : s.firmware_version = none ∨ ¬s.fw_last_read = none) :
    (fill_cache s now (.ok rf rb) .waitFail).1.last_read = some (now - s.cache_timeout + 300)
    ∧ (fill_cache s now (.ok rf rb) .waitFail).2 = none := by
  obtain ⟨s1, r, heq, hc, hl, hct⟩ := firmware_version_ok s now rf rb hinv
  simp only [fill_cache, heq]
  exact ⟨by rw [hct], trivial⟩

/-- A corrupt payload (humidity over 100) delivered during `fill_cache`:
cache wiped, shortened retry timestamp set, no exception escapes. -/
theorem fill_cache_corrupt (s : PollerState) (now : Int) (rf : Option (List Char))
    (rb : Option (Fin 256)) (raw : List Char) (dt dh : Dec)
    (hinv : s.firmware_version = none ∨ ¬s.fw_last_read = none)
    (hp : _parse_data (pyStripChars isSpaceNlTab raw) = .ok ⟨some dt, some dh⟩)
    (hcorrupt : dh.gtInt 100 = true) :
    (fill_cache s now (.ok rf rb) (.notif (some raw))).1.last_read
        = some (now - s.cache_timeout + 300)
    ∧ (fill_cache s now (.ok rf rb) (.notif (some raw))).2 = none
    ∧ (fill_cache s now (.ok rf rb) (.notif (some raw))).1.cache = none := by
  obtain ⟨s1, r, heq, hc, hl, hct⟩ := firmware_version_ok s now rf rb hinv
  have hh := handleNotification_parsed s1 now raw dt dh hp
  rw [if_pos hcorrupt] at hh
  simp only [fill_cache, heq, hh]
  exact ⟨by rw [hct], trivial, trivial⟩

/-- Unfolding `_check_data` when the cache parses but a key is missing: the
debug-log line raises `KeyError`. -/
theorem _check_data_keyErr (s : PollerState) (c : List Char) (parsed : ParsedData)
    (hc : s.cache = some c) (hp : _parse_data c = .ok parsed)
    (hmiss : parsed.temperature = none ∨ parsed.humidity = none) :
    _check_data s = (s, some .keyError) := by
  simp only [_check_data, hc, hp]
  rcases hmiss with h | h
  · rw [h]
  · cases ht : parsed.temperature with
    | none => rfl
    | some d => rw [h]

/-- A notification whose payload decodes but misses a key: `KeyError` escapes
the handler and the fresh (corrupt) cache entry stays in place. -/
theorem handleNotification_keyErr (s : PollerState) (now : Int) (raw : List Char)
    (parsed : ParsedData)
    (hp : _parse_data (pyStripChars isSpaceNlTab raw) = .ok parsed)
    (hmiss : parsed.temperature = none ∨ parsed.humidity = none) :
    handleNotification s now (some raw)
      = ({ s with cache := some (pyStripChars isSpaceNlTab raw) }, some .keyError) := by
  rw [handleNotification]
  rw [_check_data_keyErr { s with cache := some (pyStripChars isSpaceNlTab raw) }
    (pyStripChars isSpaceNlTab raw) parsed rfl hp hmiss]

/-- A payload whose parse raises (`IndexError`/`ValueError`) during
`fill_cache`: the exception escapes (only `BluetoothBackendException` is
caught) and the last-read timestamp is NOT shortened. -/
theorem fill_cache_escape (s : PollerState) (now : Int) (rf : Option (List Char))
    (rb : Option (Fin 256)) (raw : List Char) (e : PyErr)
    (hinv : s.firmware_version = none ∨ ¬s.fw_last_read = none)
    (hp : _parse_data (pyStripChars isSpaceNlTab raw) = .error e)
    (hne : ¬e = .bluetoothBackendException) :
    (fill_cache s now (.ok rf rb) (.notif (some raw))).2 = some e
    ∧ (fill_cache s now (.ok rf rb) (.notif (some raw))).1.last_read = s.last_read := by
  obtain ⟨s1, r, heq, hc, hl, hct⟩ := firmware_version_ok s now rf rb hinv
  have hh := handleNotification_err s1 now raw e hp
  cases e
  case bluetoothBackendException => exact absurd rfl hne
  all_goals
    simp only [fill_cache, heq, hh]
    exact ⟨trivial, hl⟩

/-- A payload that decodes but misses a key during `fill_cache`: the
`KeyError` escapes and the last-read timestamp is NOT shortened. -/
theorem fill_cache_keyErr (s : PollerState) (now : Int) (rf : Option (List Char))
    (rb : Option (Fin 256)) (raw : List Char) (parsed : ParsedData)
    (hinv : s.firmware_version = none ∨ ¬s.fw_last_read = none)
    (hp : _parse_data (pyStripChars isSpaceNlTab raw) = .ok parsed)
    (hmiss : parsed.temperature = none ∨ parsed.humidity = none) :
    (fill_cache s now (.ok rf rb) (.notif (some raw))).2 = some .keyError
    ∧ (fill_cache s now (.ok rf rb) (.notif (some raw))).1.last_read = s.last_read := by
  obtain ⟨s1, r, heq, hc, hl, hct⟩ := firmware_version_ok s now rf rb hinv
  have hh := handleNotification_keyErr s1 now raw parsed hp hmiss
  simp only [fill_cache, heq, hh]
  exact ⟨trivial, hl⟩

/-! ### Claims -/

/-- **C1** (code evaluation at the failing input).  The claim says
`parameter_value(Battery)` delegates to the firmware/battery path and returns
the stored battery value.  In the code, `parameter_value` first evaluates
`MiTempParameter.MI_BATTERY`, a member the enum does not have, so the call
raises `AttributeError` and leaves the state untouched — the delegation never
happens.  The second conjunct shows what `battery_level` (the intended
delegate) would have returned on the same fresh poller. -/
theorem c1_battery_attribute_error :
    parameter_value initState 0 .BATTERY true (.ok (some "1.00".data) (some 77)) (.notif none)
        = (initState, .error .attributeError)
    ∧ battery_level initState 0 (.ok (some "1.00".data) (some 77))
        = (fwFetchedState, .ok (some 77)) :=
  ⟨rfl, by decide⟩

/-- **C2** (counterexample).  The claim says cached humidity always lies in
`[0, 100]` and any violation clears the cache.  Payload `T=25.6 H=-5.0`
processes without error and is KEPT with humidity `-5 < 0`; payload `H=150.0`
(temperature key missing) raises `KeyError` inside the validator's debug-log
line and the cache SURVIVES holding humidity `150 > 100`. -/
theorem c2_counterexample :
    ((handleNotification initState 100 (some "T=25.6 H=-5.0".data)).2 = none
      ∧ cache_available (handleNotification initState 100 (some "T=25.6 H=-5.0".data)).1 = true
      ∧ _parse_data "T=25.6 H=-5.0".data = .ok ⟨some ⟨256, 1⟩, some ⟨-50, 1⟩⟩
      ∧ Dec.toRat ⟨-50, 1⟩ < 0)
    ∧ ((handleNotification initState 100 (some "H=150.0".data)).2 = some .keyError
      ∧ cache_available (handleNotification initState 100 (some "H=150.0".data)).1 = true
      ∧ _parse_data "H=150.0".data = .ok ⟨none, some ⟨1500, 1⟩⟩
      ∧ (100 : ℚ) < Dec.toRat ⟨1500, 1⟩) :=
  ⟨⟨by decide, by decide, by decide, by norm_num [Dec.toRat]⟩,
   ⟨by decide, by decide, by decide, by norm_num [Dec.toRat]⟩⟩

/-- **C2 (amended)**  Only the upper humidity bound is enforced, and only for
payloads whose decode yields both keys: processing such a payload never
raises, the entry survives exactly when humidity ≤ 100 (negative humidity
included), and is wiped immediately when humidity > 100. -/
theorem c2_humidity_upper_bound_only (s : PollerState) (now : Int) (raw : List Char)
    (dt dh : Dec)
    (hp : _parse_data (pyStripChars isSpaceNlTab raw) = .ok ⟨some dt, some dh⟩) :
    (handleNotification s now (some raw)).2 = none
    ∧ (cache_available (handleNotification s now (some raw)).1 = true ↔ dh.toRat ≤ 100)
    ∧ ((100 : ℚ) < dh.toRat → (handleNotification s now (some raw)).1.cache = none) := by
  have hh := handleNotification_parsed s now raw dt dh hp
  by_cases hb : dh.gtInt 100
  · rw [if_pos hb] at hh
    rw [hh]
    have h100 : (100 : ℚ) < dh.toRat := by
      have := (Dec.gtInt_iff dh 100).1 hb
      exact_mod_cast this
    refine ⟨rfl, ?_, fun _ => rfl⟩
    simp [cache_available]
    linarith
  · rw [if_neg hb] at hh
    rw [hh]
    have h100 : ¬(100 : ℚ) < dh.toRat := by
      intro hlt
      exact hb ((Dec.gtInt_iff dh 100).2 (by exact_mod_cast hlt))
    refine ⟨rfl, ?_, fun hlt => absurd hlt h100⟩
    simp [cache_available]
    linarith [not_lt.1 h100]

/-- Witness for C2 (amended) at the corrupt payload `T=1 H=101`. -/
theorem c2_witness :
    (handleNotification initState 50 (some "T=1 H=101".data)).2 = none
    ∧ (handleNotification initState 50 (some "T=1 H=101".data)).1.cache = none :=
  ⟨(c2_humidity_upper_bound_only initState 50 "T=1 H=101".data ⟨1, 0⟩ ⟨101, 0⟩ (by decide)).1,
   (c2_humidity_upper_bound_only initState 50 "T=1 H=101".data ⟨1, 0⟩ ⟨101, 0⟩ (by decide)).2.2
     (by norm_num [Dec.toRat])⟩

/-- **C3** (code evaluation at the failing input).  With a fresh cache
(`last_read = 1000`, `now = 1100`, TTL 600) and `read_cached = true`, the
staleness test is indeed false, but the call does not serve the cached value:
it raises `AttributeError` (the `MI_BATTERY` slip) for every environment.
The dead remainder of the method (`parameter_value_body`) would have served
the cached temperature without touching the connection. -/
theorem c3_fresh_cache_attribute_error :
    cache_is_stale freshReadState 1100 true = false
    ∧ (∀ (fwEnv : FwReadEnv) (nEnv : NotifEnv),
      parameter_value freshReadState 1100 .TEMPERATURE true fwEnv nEnv
        = (freshReadState, .error .attributeError))
    ∧ (∀ (fwEnv : FwReadEnv) (nEnv : NotifEnv),
      parameter_value_body freshReadState 1100 .TEMPERATURE true fwEnv nEnv
        = (freshReadState, .ok ⟨256, 1⟩)) :=
  ⟨by decide, fun _ _ => rfl, fun _ _ => rfl⟩

/-- **C4** (counterexample).  The claim covers EVERY corrupt payload during a
refresh, but payloads whose validation itself raises never get the shortened
retry timestamp: `H=150.0` (humidity 150 > 100 with the temperature key
missing) raises `KeyError`, a bare `T` raises `IndexError`, and `T=1 H=abc`
raises `ValueError`; each exception escapes `fill_cache` and the last-read
timestamp stays `none` instead of `now - cache_timeout + 300`. -/
theorem c4_counterexample :
    (fill_cache initState 0 (.ok (some "1.00".data) (some 77))
        (.notif (some "H=150.0".data))).2 = some .keyError
    ∧ (fill_cache initState 0 (.ok (some "1.00".data) (some 77))
        (.notif (some "H=150.0".data))).1.last_read = none
    ∧ ¬(none : Option Int) = some ((0 : Int) - initState.cache_timeout + 300)
    ∧ (fill_cache initState 0 (.ok (some "1.00".data) (some 77))
        (.notif (some "T".data))).2 = some .indexError
    ∧ (fill_cache initState 0 (.ok (some "1.00".data) (some 77))
        (.notif (some "T".data))).1.last_read = none
    ∧ (fill_cache initState 0 (.ok (some "1.00".data) (some 77))
        (.notif (some "T=1 H=abc".data))).2 = some .valueError
    ∧ (fill_cache initState 0 (.ok (some "1.00".data) (some 77))
        (.notif (some "T=1 H=abc".data))).1.last_read = none :=
  ⟨by decide, by decide, by decide, by decide, by decide, by decide, by decide⟩

/-- **C4 (amended)**  Firmware read failures, notification-wait
failures/timeouts, and corrupt payloads that decode with both keys and
humidity over 100 set the last-read timestamp to `now - cache_timeout + 300`,
with which the staleness check next succeeds at 301 s and not at 300 s — 5
minutes instead of a full TTL.  Corrupt payloads whose validation itself
raises — a missing `T`/`H` key (`KeyError`), a bare token (`IndexError`), an
unparsable value (`ValueError`) — instead escape `fill_cache` as exceptions
and leave the last-read timestamp untouched. -/
theorem c4_retry_backoff :
    (∀ (s : PollerState) (now : Int) (nEnv : NotifEnv),
      (s.firmware_version = none ∨ ∃ t, s.fw_last_read = some t ∧ now - 86400 > t) →
      (fill_cache s now .fail nEnv).1.last_read = some (now - s.cache_timeout + 300)
      ∧ (fill_cache s now .fail nEnv).2 = some .bluetoothBackendException)
    ∧ (∀ (s : PollerState) (now : Int) (rf : Option (List Char)) (rb : Option (Fin 256)),
      (s.firmware_version = none ∨ ¬s.fw_last_read = none) →
      (fill_cache s now (.ok rf rb) .waitFail).1.last_read = some (now - s.cache_timeout + 300)
      ∧ (fill_cache s now (.ok rf rb) .waitFail).2 = none)
    ∧ (∀ (s : PollerState) (now : Int) (rf : Option (List Char)) (rb : Option (Fin 256))
        (raw : List Char) (dt dh : Dec),
      (s.firmware_version = none ∨ ¬s.fw_last_read = none) →
      _parse_data (pyStripChars isSpaceNlTab raw) = .ok ⟨some dt, some dh⟩ →
      (100 : ℚ) < dh.toRat →
      (fill_cache s now (.ok rf rb) (.notif (some raw))).1.last_read
          = some (now - s.cache_timeout + 300)
      ∧ (fill_cache s now (.ok rf rb) (.notif (some raw))).2 = none)
    ∧ (∀ (s : PollerState) (now : Int), s.last_read = some (now - s.cache_timeout + 300) →
      cache_is_stale s (now + 301) true = true ∧ cache_is_stale s (now + 300) true = false)
    ∧ (∀ (s : PollerState) (now : Int) (rf : Option (List Char)) (rb : Option (Fin 256))
        (raw : List Char) (e : PyErr),
      (s.firmware_version = none ∨ ¬s.fw_last_read = none) →
      _parse_data (pyStripChars isSpaceNlTab raw) = .error e →
      ¬e = .bluetoothBackendException →
      (fill_cache s now (.ok rf rb) (.notif (some raw))).2 = some e
      ∧ (fill_cache s now (.ok rf rb) (.notif (some raw))).1.last_read = s.last_read)
    ∧ (∀ (s : PollerState) (now : Int) (rf : Option (List Char)) (rb : Option (Fin 256))
        (raw : List Char) (parsed : ParsedData),
      (s.firmware_version = none ∨ ¬s.fw_last_read = none) →
      _parse_data (pyStripChars isSpaceNlTab raw) = .ok parsed →
      (parsed.temperature = none ∨ parsed.humidity = none) →
      (fill_cache s now (.ok rf rb) (.notif (some raw))).2 = some .keyError
      ∧ (fill_cache s now (.ok rf rb) (.notif (some raw))).1.last_read = s.last_read) := by
  refine ⟨?_, ?_, ?_, ?_, ?_, ?_⟩
  · intro s now nEnv hfetch
    rw [fill_cache_fw_fail s now nEnv hfetch]
    exact ⟨rfl, rfl⟩
  · intro s now rf rb hinv
    exact fill_cache_wait_fail s now rf rb hinv
  · intro s now rf rb raw dt dh hinv hp hcorrupt
    have h := fill_cache_corrupt s now rf rb raw dt dh hinv hp
      ((Dec.gtInt_iff dh 100).2 (by exact_mod_cast hcorrupt))
    exact ⟨h.1, h.2.1⟩
  · intro s now h
    constructor
    · simp only [cache_is_stale, h, Bool.not_true, Bool.false_or]
      rw [decide_eq_true_eq]
      omega
    · simp only [cache_is_stale, h, Bool.not_true, Bool.false_or]
      rw [decide_eq_false_iff_not]
      omega
  · intro s now rf rb raw e hinv hp hne
    exact fill_cache_escape s now rf rb raw e hinv hp hne
  · intro s now rf rb raw parsed hinv hp hmiss
    exact fill_cache_keyErr s now rf rb raw parsed hinv hp hmiss

/-- Witness for C4 (amended): each behaviour at a concrete fresh poller. -/
theorem c4_witness :
    ((fill_cache initState 0 .fail .waitFail).1.last_read
        = some (0 - initState.cache_timeout + 300)
      ∧ (fill_cache initState 0 .fail .waitFail).2 = some .bluetoothBackendException)
    ∧ ((fill_cache initState 0 (.ok (some "1.00".data) (some 77)) .waitFail).1.last_read
        = some (0 - initState.cache_timeout + 300)
      ∧ (fill_cache initState 0 (.ok (some "1.00".data) (some 77)) .waitFail).2 = none)
    ∧ ((fill_cache initState 0 (.ok none none) (.notif (some "T=1 H=101".data))).1.last_read
        = some (0 - initState.cache_timeout + 300)
      ∧ (fill_cache initState 0 (.ok none none) (.notif (some "T=1 H=101".data))).2 = none)
    ∧ (cache_is_stale { initState with last_read := some (0 - 600 + 300) } (0 + 301) true = true
      ∧ cache_is_stale { initState with last_read := some (0 - 600 + 300) } (0 + 300) true
        = false)
    ∧ ((fill_cache initState 3 (.ok none none) (.notif (some "T".data))).2 = some .indexError
      ∧ (fill_cache initState 3 (.ok none none) (.notif (some "T".data))).1.last_read
        = initState.last_read)
    ∧ ((fill_cache initState 4 (.ok none none) (.notif (some "H=150.0".data))).2
        = some .keyError
      ∧ (fill_cache initState 4 (.ok none none) (.notif (some "H=150.0".data))).1.last_read
        = initState.last_read) :=
  ⟨c4_retry_backoff.1 initState 0 .waitFail (Or.inl rfl),
   c4_retry_backoff.2.1 initState 0 (some "1.00".data) (some 77) (Or.inl rfl),
   c4_retry_backoff.2.2.1 initState 0 none none "T=1 H=101".data ⟨1, 0⟩ ⟨101, 0⟩ (Or.inl rfl)
     (by decide) (by norm_num [Dec.toRat]),
   c4_retry_backoff.2.2.2.1 { initState with last_read := some (0 - 600 + 300) } 0 rfl,
   c4_retry_backoff.2.2.2.2.1 initState 3 none none "T".data .indexError (Or.inl rfl)
     (by decide) (by decide),
   c4_retry_backoff.2.2.2.2.2 initState 4 none none "H=150.0".data ⟨none, some ⟨1500, 1⟩⟩
     (Or.inl rfl) (by decide) (Or.inl rfl)⟩

/-- **C5** (counterexample).  The claim says the only error observable from
`parameter_value(Temperature)` is the `SensorUnavailable` failure
(`BluetoothBackendException`).  In an environment where every transport
operation succeeds, the call raises `AttributeError`, which is not that
error. -/
theorem c5_counterexample :
    (parameter_value initState 0 .TEMPERATURE true (.ok (some "1.00".data) (some 77))
        (.notif (some "T=25.6 H=23.6".data))).2 = .error .attributeError
    ∧ ¬PyErr.attributeError = PyErr.bluetoothBackendException :=
  ⟨rfl, by decide⟩

/-- **C5 (amended)**  Every `parameter_value` call fails with `AttributeError`
before any refresh is attempted, so neither refresh failures nor
`SensorUnavailable` can be observed from it.  Inside `fill_cache` itself the
claimed absorption holds for the notification wait and for corrupt payloads,
but a firmware read failure re-raises `BluetoothBackendException` (the spec's
"loud" path) rather than being absorbed. -/
theorem c5_amended_error_surface :
    (∀ (s : PollerState) (now : Int) (p : MiTempParameter) (rc : Bool)
        (fwEnv : FwReadEnv) (nEnv : NotifEnv),
      (parameter_value s now p rc fwEnv nEnv).2 = .error .attributeError)
    ∧ (fill_cache initState 0 (.ok (some "1.00".data) (some 77)) .waitFail).2 = none
    ∧ (fill_cache initState 0 (.ok (some "1.00".data) (some 77))
        (.notif (some "T=25.6 H=101.0".data))).2 = none
    ∧ (fill_cache initState 0 .fail .connectFail).2 = some .bluetoothBackendException :=
  ⟨fun _ _ _ _ _ _ => rfl, by decide, by decide, by decide⟩

/-- **C7** (counterexample).  With a valid fresh cache that lacks the
requested key, the claim says the call fails with `SensorUnavailable`
(`BluetoothBackendException`); in fact it raises `AttributeError` before the
cache-or-refresh step is ever reached. -/
theorem c7_counterexample :
    (parameter_value tOnlyState 1100 .HUMIDITY true (.ok (some "1.00".data) (some 77))
        .waitFail).2 = .error .attributeError
    ∧ ¬(parameter_value tOnlyState 1100 .HUMIDITY true (.ok (some "1.00".data) (some 77))
        .waitFail).2 = .error .bluetoothBackendException :=
  ⟨rfl, by decide⟩

/-- **C7 (amended)**  No `parameter_value` call reaches the post-refresh step
(`AttributeError` first).  In the standalone model of that dead step
(`parameter_value_body`): a present cache with the requested field returns it;
a present cache missing the requested field raises `KeyError`, not
`SensorUnavailable`; an absent cache after a silently failed refresh raises
`SensorUnavailable` (`BluetoothBackendException`). -/
theorem c7_amended_final_step :
    (∀ (s : PollerState) (now : Int) (p : MiTempParameter) (rc : Bool)
        (fwEnv : FwReadEnv) (nEnv : NotifEnv),
      (parameter_value s now p rc fwEnv nEnv).2 = .error .attributeError)
    ∧ (∀ (fwEnv : FwReadEnv) (nEnv : NotifEnv),
      (parameter_value_body freshReadState 1100 .HUMIDITY true fwEnv nEnv).2 = .ok ⟨236, 1⟩)
    ∧ (∀ (fwEnv : FwReadEnv) (nEnv : NotifEnv),
      (parameter_value_body tOnlyState 1100 .HUMIDITY true fwEnv nEnv).2 = .error .keyError)
    ∧ (parameter_value_body initState 0 .TEMPERATURE true
        (.ok (some "1.00".data) (some 77)) .waitFail).2 = .error .bluetoothBackendException :=
  ⟨fun _ _ _ _ _ _ => rfl, fun _ _ => rfl, fun _ _ => rfl, by decide⟩

/-- **C8** (counterexample).  The claim asserts the decoded battery value lies
in `[0, 100]`; a battery byte of `200` is stored as `200`. -/
theorem c8_counterexample :
    (firmware_version initState 0 (.ok (some "1.00".data) (some 200))).1.battery = some 200
    ∧ ¬(200 : Nat) ≤ 100 :=
  ⟨by decide, by decide⟩

/-- **C8 (amended)**  A live fetch occurs iff no firmware version is cached
(in particular on the first call) or more than 24 h elapsed since the last
fetch; on fetch the time is stamped, the firmware text (or `None`) and the
battery byte (`0` if absent) are stored, and the firmware string is returned
(the cached one when no fetch occurs).  The battery lies in `[0, 255]` — an
unsigned byte — not `[0, 100]`. -/
theorem c8_firmware_refresh :
    (∀ (s : PollerState) (now : Int) (env : FwReadEnv),
      s.firmware_version = none → firmware_version s now env = fwFetch s now env)
    ∧ (∀ (s : PollerState) (now : Int) (env : FwReadEnv) (f : List Char) (t : Int),
      s.firmware_version = some f → s.fw_last_read = some t → now - t > 86400 →
      firmware_version s now env = fwFetch s now env)
    ∧ (∀ (s : PollerState) (now : Int) (env : FwReadEnv) (f : List Char) (t : Int),
      s.firmware_version = some f → s.fw_last_read = some t → ¬now - t > 86400 →
      firmware_version s now env = (s, .ok (some f)))
    ∧ (∀ (s : PollerState) (now : Int) (rf : Option (List Char)) (rb : Option (Fin 256)),
      fwFetch s now (.ok rf rb)
        = ({ s with fw_last_read := some now, firmware_version := rf, battery := some (batteryOfRead rb) }, .ok rf))
    ∧ (∀ rb : Option (Fin 256), batteryOfRead rb ≤ 255)
    ∧ batteryOfRead none = 0 := by
  refine ⟨?_, ?_, ?_, ?_, ?_, rfl⟩
  · intro s now env h1
    exact firmware_version_first s now env h1
  · intro s now env f t hf ht hstale
    exact firmware_version_stale s now env f t hf ht (by omega)
  · intro s now env f t hf ht hfresh
    exact firmware_version_fresh s now env f t hf ht (by omega)
  · intro s now rf rb
    rfl
  · intro rb
    cases rb with
    | none => decide
    | some b =>
      have hb := b.isLt
      simp [batteryOfRead]
      omega

/-- Witness for C8 (amended): first call fetches; a fresh timer serves the
cached string on any environment; a stale timer fetches again. -/
theorem c8_witness :
    firmware_version initState 5 (.ok (some "1.00".data) none)
        = fwFetch initState 5 (.ok (some "1.00".data) none)
    ∧ firmware_version fwCachedState 100 .fail = (fwCachedState, .ok (some "1.00".data))
    ∧ firmware_version fwCachedState 100000 (.ok (some "2.00".data) (some 55))
      = fwFetch fwCachedState 100000 (.ok (some "2.00".data) (some 55)) :=
  ⟨c8_firmware_refresh.1 initState 5 (.ok (some "1.00".data) none) rfl,
   c8_firmware_refresh.2.2.1 fwCachedState 100 .fail "1.00".data 0 rfl rfl (by omega),
   c8_firmware_refresh.2.1 fwCachedState 100000 (.ok (some "2.00".data) (some 55)) "1.00".data 0
     rfl rfl (by omega)⟩

/-- **C9** (counterexample).  After `clear_cache`, the claim says the next
`parameter_value` call triggers a refresh; in fact the next call raises
`AttributeError` and leaves the state exactly as `clear_cache` left it — no
refresh, no timestamps stamped. -/
theorem c9_counterexample :
    parameter_value (clear_cache freshReadState) 1001 .TEMPERATURE true
        (.ok (some "1.00".data) (some 77)) .waitFail
      = (clear_cache freshReadState, .error .attributeError) := by
  decide

/-- **C9 (amended)**  `clear_cache` does make `cache_available` false and does
reset the last-read timestamp, and the staleness condition of
`parameter_value` then mandates a refresh regardless of elapsed time — but the
next `parameter_value` call raises `AttributeError` before refreshing. -/
theorem c9_clear_cache_effects :
    (∀ s : PollerState, cache_available (clear_cache s) = false)
    ∧ (∀ s : PollerState, (clear_cache s).last_read = none)
    ∧ (∀ (s : PollerState) (now : Int), cache_is_stale (clear_cache s) now true = true)
    ∧ (∀ (s : PollerState) (now : Int) (p : MiTempParameter) (rc : Bool)
        (fwEnv : FwReadEnv) (nEnv : NotifEnv),
      (parameter_value (clear_cache s) now p rc fwEnv nEnv).2 = .error .attributeError) :=
  ⟨fun _ => rfl, fun _ => rfl, fun _ _ => rfl, fun _ _ _ _ _ _ => rfl⟩

/-- **C6**  Decoding: every payload of the form `T=<float> H=<float>`
surrounded by non-printable characters (NUL padding included) decodes to
exactly those two parsed values; tokens with an unrecognized key are ignored;
and the example byte payload `54 3d 32 35 2e 36 20 48 3d 32 33 2e 36 00`
decodes to temperature 25.6 (= 128/5) and humidity 23.6 (= 118/5). -/
theorem c6_decoding :
    (∀ (pre post t w : List Char) (dt dw : Dec),
      (∀ c ∈ pre, pyIsPrintable c = false) →
      (∀ c ∈ post, pyIsPrintable c = false) →
      (∀ c ∈ t, pyIsPrintable c = true ∧ ¬c = ' ' ∧ ¬c = '=') →
      (∀ c ∈ w, pyIsPrintable c = true ∧ ¬c = ' ' ∧ ¬c = '=') →
      pyFloat t = some dt → pyFloat w = some dw →
      _parse_data (pre ++ (('T' :: '=' :: t) ++ (' ' :: (('H' :: '=' :: w) ++ post))))
        = .ok ⟨some dt, some dw⟩)
    ∧ (∀ (res : ParsedData) (u k : List Char) (parts : List (List Char)),
      splitOnChar '=' u = k :: parts → ¬k = ['T'] → ¬k = ['H'] →
      parseToken res u = .ok res)
    ∧ _parse_data ([0x54, 0x3d, 0x32, 0x35, 0x2e, 0x36, 0x20, 0x48, 0x3d, 0x32, 0x33,
        0x2e, 0x36, 0x00].map Char.ofNat) = .ok ⟨some ⟨256, 1⟩, some ⟨236, 1⟩⟩
    ∧ Dec.toRat ⟨256, 1⟩ = 128 / 5 ∧ Dec.toRat ⟨236, 1⟩ = 118 / 5 := by
  refine ⟨?_, parseToken_other, by decide, by norm_num [Dec.toRat], by norm_num [Dec.toRat]⟩
  intro pre post t w dt dw hpre hpost ht hw hpt hpw
  have hfil : (pre ++ (('T' :: '=' :: t) ++ (' ' :: (('H' :: '=' :: w) ++ post)))).filter
      pyIsPrintable = ('T' :: '=' :: t) ++ (' ' :: ('H' :: '=' :: w)) := by
    have h1 : pre.filter pyIsPrintable = [] :=
      List.filter_eq_nil_iff.2 fun a ha => by simp [hpre a ha]
    have h2 : post.filter pyIsPrintable = [] :=
      List.filter_eq_nil_iff.2 fun a ha => by simp [hpost a ha]
    have h3 : t.filter pyIsPrintable = t :=
      List.filter_eq_self.2 fun a ha => (ht a ha).1
    have h4 : w.filter pyIsPrintable = w :=
      List.filter_eq_self.2 fun a ha => (hw a ha).1
    simp [List.filter_append, List.filter_cons, h1, h2, h3, h4,
      (by decide : pyIsPrintable 'T' = true), (by decide : pyIsPrintable 'H' = true),
      (by decide : pyIsPrintable '=' = true), (by decide : pyIsPrintable ' ' = true)]
  have hnsT : ∀ c ∈ ('T' :: '=' :: t), ¬c = ' ' := by
    intro c hc
    simp only [List.mem_cons] at hc
    rcases hc with rfl | rfl | hc
    · decide
    · decide
    · exact (ht c hc).2.1
  have hnsH : ∀ c ∈ ('H' :: '=' :: w), ¬c = ' ' := by
    intro c hc
    simp only [List.mem_cons] at hc
    rcases hc with rfl | rfl | hc
    · decide
    · decide
    · exact (hw c hc).2.1
  have hsplit : splitOnChar ' ' (('T' :: '=' :: t) ++ (' ' :: ('H' :: '=' :: w)))
      = ('T' :: '=' :: t) :: [('H' :: '=' :: w)] := by
    rw [splitOnChar_append ('T' :: '=' :: t) ('H' :: '=' :: w) hnsT,
      splitOnChar_no_sep ('H' :: '=' :: w) hnsH]
  have htok1 := parseToken_T { temperature := none, humidity := none } t dt
    (fun c hc => (ht c hc).2.2) hpt
  have htok2 := parseToken_H { temperature := some dt, humidity := none } w dw
    (fun c hc => (hw c hc).2.2) hpw
  unfold _parse_data
  rw [sanitize_eq_filter, hfil, hsplit]
  exact parseTokens_two _ _ _ _ _ htok1 htok2

/-- Witness for C6 at the concrete payload `\x01\x02T=25.6 H=23.6\x00`. -/
theorem c6_witness :
    _parse_data ("\x01\x02".data ++ (('T' :: '=' :: "25.6".data)
        ++ (' ' :: (('H' :: '=' :: "23.6".data) ++ "\x00".data))))
      = .ok ⟨some ⟨256, 1⟩, some ⟨236, 1⟩⟩ :=
  c6_decoding.1 "\x01\x02".data "\x00".data "25.6".data "23.6".data ⟨256, 1⟩ ⟨236, 1⟩
    (by decide) (by decide) (by decide) (by decide) (by decide) (by decide)

/-- **C10**  Decoding is not total: a payload whose first space-separated
token is exactly `T` or `H` with no `=` separator raises `IndexError` from
`_parse_data` (whatever follows); arriving via `handleNotification`, the
error escapes the handler while the corrupt entry stays cached (neither
ignored nor invalidated) and the last-read timestamp is untouched. -/
theorem c10_bare_token_index_error :
    (∀ rest : List Char, _parse_data ('T' :: ' ' :: rest) = .error .indexError)
    ∧ (∀ rest : List Char, _parse_data ('H' :: ' ' :: rest) = .error .indexError)
    ∧ _parse_data ['T'] = .error .indexError
    ∧ _parse_data ['H'] = .error .indexError
    ∧ (∀ (s : PollerState) (now : Int) (rest : List Char),
      (handleNotification s now (some ('T' :: ' ' :: rest))).2 = some .indexError
      ∧ cache_available (handleNotification s now (some ('T' :: ' ' :: rest))).1 = true
      ∧ (handleNotification s now (some ('T' :: ' ' :: rest))).1.last_read = s.last_read) := by
  have hsp : ∀ (x : Char) (z : List Char), ¬x = ' ' →
      splitOnChar ' ' (x :: ' ' :: z) = [x] :: splitOnChar ' ' z := by
    intro x z hx
    have hz : splitOnChar ' ' (' ' :: z) = [] :: splitOnChar ' ' z := by
      rw [splitOnChar, if_pos rfl]
    rw [splitOnChar, if_neg hx, hz]
  have hT : ∀ rest : List Char, _parse_data ('T' :: ' ' :: rest) = .error .indexError := by
    intro rest
    have hfil : ('T' :: ' ' :: rest).filter pyIsPrintable
        = 'T' :: ' ' :: rest.filter pyIsPrintable := by
      simp [List.filter_cons, (by decide : pyIsPrintable 'T' = true),
        (by decide : pyIsPrintable ' ' = true)]
    unfold _parse_data
    rw [sanitize_eq_filter, hfil, hsp 'T' (rest.filter pyIsPrintable) (by decide)]
    exact parseTokens_bareT _ _
  have hH : ∀ rest : List Char, _parse_data ('H' :: ' ' :: rest) = .error .indexError := by
    intro rest
    have hfil : ('H' :: ' ' :: rest).filter pyIsPrintable
        = 'H' :: ' ' :: rest.filter pyIsPrintable := by
      simp [List.filter_cons, (by decide : pyIsPrintable 'H' = true),
        (by decide : pyIsPrintable ' ' = true)]
    unfold _parse_data
    rw [sanitize_eq_filter, hfil, hsp 'H' (rest.filter pyIsPrintable) (by decide)]
    exact parseTokens_bareH _ _
  refine ⟨hT, hH, by decide, by decide, ?_⟩
  intro s now rest
  obtain ⟨t0, hdata, hpre⟩ := pyStripChars_cons (p := isSpaceNlTab) 'T' (' ' :: rest) (by decide)
  have herr : _parse_data (pyStripChars isSpaceNlTab ('T' :: ' ' :: rest))
      = .error .indexError := by
    rw [hdata]
    rcases List.prefix_cons_iff.1 hpre with h0 | ⟨t1, ht1, hpre1⟩
    · rw [h0]
      decide
    · rw [ht1]
      exact hT t1
  have hh := handleNotification_err s now ('T' :: ' ' :: rest) .indexError herr
  rw [hh]
  exact ⟨rfl, rfl, rfl⟩

end MiTemp
